import Mathlib

/-!
Verification development for the PO_telegram_signal_bot repository.

The trade-sequence orchestrator of `src/trader.py` (concurrency gate,
entry-time resolver, martingale state machine, outcome monitor) is embedded
shallowly: the mutable module-level dictionary `trade_sequence_state` together
with the flag `is_processing_trade_sequence` becomes an explicit state record,
each async handler becomes a pure function from an environment (the results
of the fallible broker RPCs it performs) and a pre-state to a response and a
post-state.  Money amounts (Python floats) are modelled by rationals; instants
are modelled by integer seconds since an epoch, with Python's floor division
and modulo rendered as the Euclidean `/` and `%` of `Int`.

Where `src/main.py` (the variant draft of the same orchestrator) decides a
claim, its differing fragments are embedded separately: its entry-time
resolver (`mainResolveTarget`) and its balance-retry outcome decision
(`mainBalanceLoop`, `mainDetermineReentry`).
-/

/-- OrderDirection values used by the bot (the broker enum's CALL/PUT). -/
inductive Direction
  | call
  | put
deriving DecidableEq

/-- The values stored in `trade_sequence_state["last_trade_status"]`. -/
inductive TStatus
  | pending
  | win
  | lose
  | uncertain_loss
deriving DecidableEq

/-- The module-level dictionary `trade_sequence_state` of trader.py. -/
structure SeqState where
  active : Bool
  asset : Option String
  direction : Option Direction
  current_level : Nat
  current_amount : ℚ
  last_trade_id : Option Nat
  last_trade_status : Option TStatus
  balance_before_current_trade : Option ℚ
deriving DecidableEq

/-- The whole mutable global state of trader.py: the sequence dictionary plus
the single-flight gate flag `is_processing_trade_sequence`. -/
structure GState where
  seq : SeqState
  gate : Bool
deriving DecidableEq

/-- INITIAL_TRADE_AMOUNT = 1.0 (trader.py line 36). -/
def INITIAL_TRADE_AMOUNT : ℚ := 1

/-- MARTINGALE_MULTIPLIER = 2.0 (trader.py line 37). -/
def MARTINGALE_MULTIPLIER : ℚ := 2

/-- MAX_MARTINGALE_LEVELS = 2 (trader.py line 38). -/
def MAX_MARTINGALE_LEVELS : Nat := 2

/-- TOLERANCE = 0.01 used for the balance comparison (trader.py line 345). -/
def TOLERANCE : ℚ := 1 / 100

/-- The initial value of `trade_sequence_state` (trader.py lines 43-52)
together with the initial gate value `False` (line 33). -/
def GState.init : GState :=
  { seq := { active := false
             asset := none
             direction := none
             current_level := 0
             current_amount := INITIAL_TRADE_AMOUNT
             last_trade_id := none
             last_trade_status := none
             balance_before_current_trade := none }
    gate := false }

/-- reset_trade_sequence_state (trader.py lines 420-432): overwrites every
field of the sequence dictionary with its default and clears the gate.  The
incoming state is ignored because the source assigns every key. -/
def reset_trade_sequence_state (_g : GState) : GState :=
  { seq := { active := false
             asset := none
             direction := none
             current_level := 0
             current_amount := INITIAL_TRADE_AMOUNT
             last_trade_id := none
             last_trade_status := none
             balance_before_current_trade := none }
    gate := false }

/-! ## Entry-time resolution

`LOCAL_TIMEZONE` is Africa/Windhoek, a fixed UTC+2 zone (no DST since 2017);
`SIGNAL_TIMEZONE` is America/New_York, whose UTC offset at the localized
naive datetime is supplied by the environment as `roff` (in seconds,
negative; -14400 during daylight saving, -18000 otherwise).  An instant is
an integer count of seconds since an epoch, in UTC. -/

/-- Africa/Windhoek is UTC+2: 7200 seconds. -/
def localOffsetSeconds : Int := 7200

/-- The local civil clock reading (seconds since the epoch's local midnight
chain) at instant `now`. -/
def localCivil (now : Int) : Int := now + localOffsetSeconds

/-- The local calendar day index of instant `now` (Python date of
`datetime.now(LOCAL_TIMEZONE)`). -/
def localDay (now : Int) : Int := localCivil now / 86400

/-- The local hour-of-day of instant `now` (`current_local_dt.hour`). -/
def localHour (now : Int) : Int := localCivil now % 86400 / 3600

/-- Entry-time resolver of trader.py lines 173-181: combine the CURRENT
LOCAL date with the signal's time-of-day, localize the naive result in the
remote timezone (offset `roff`), and convert to local time.  The returned
value is the target instant (conversion between zones does not move the
instant). -/
def traderResolveTarget (now h m roff : Int) : Int :=
  (localDay now * 86400 + h * 3600 + m * 60) - roff

/-- Entry-time resolver of main.py lines 157-168: same as the trader.py
resolver, except that whenever the current local hour is at most 6 the
localized datetime is moved back one day before reconversion. -/
def mainResolveTarget (now h m roff : Int) : Int :=
  let naive := localDay now * 86400 + h * 3600 + m * 60
  let naive' := if localHour now ≤ 6 then naive - 86400 else naive
  naive' - roff

/-- Modelled from the spec: the entry-time resolution algorithm as the spec
and claim C8 state it — combine today's date IN THE REMOTE TIMEZONE with the
given time-of-day, localize to the remote timezone, convert to local time,
and subtract one day before reconversion whenever the current local hour is
below a small threshold (taken as the code's own threshold, hour at most 6).
This definition exists only to be compared with the resolvers transcribed
from the source; it is not source code. -/
def specResolveTarget (now h m roff : Int) : Int :=
  let remoteDay := (now + roff) / 86400
  let naive := remoteDay * 86400 + h * 3600 + m * 60
  let naive' := if localHour now ≤ 6 then naive - 86400 else naive
  naive' - roff

/-! ## Outcome determination and the martingale step (trader.py) -/

/-- The RPC results observed by one run of the background monitor
`monitor_trade_and_execute_martingale`: the eventual result of the
check_order_result retry loop (`none` when all 15 attempts fail to yield a
profit figure), the eventual result of `get_valid_balance` after the trade
(`none` when no valid balance is obtained), whether the martingale re-entry
`place_order` call succeeds, the order id it returns, and the result of
`get_valid_balance` after that placement. -/
structure MonitorEnv where
  profitDetails : Option ℚ
  balanceAfter : Option ℚ
  placeOk : Bool
  nextOrderId : Nat
  balanceAfterPlacement : Option ℚ
deriving DecidableEq

/-- How one monitor run ends: with a further martingale order placed (the
amount recorded is the amount actually handed to place_order), or with the
sequence ended. -/
inductive MonOut
  | placedReentry (orderId : Nat) (amount : ℚ)
  | ended
deriving DecidableEq

/-- Python's `abs()` on a rational, written so that it evaluates by kernel
reduction. -/
def ratAbs (x : ℚ) : Rat := if x < 0 then -x else x

/-- Steps 1-3 of `monitor_trade_and_execute_martingale` (trader.py lines
300-360): decide whether a martingale re-entry is needed, which status (if
any) to record, and the new `balance_before_current_trade`.  Missing profit
details or an unobtainable balance are decided as loss with the balance
assumed to have dropped by the invested amount (lines 318-324, 330-336);
otherwise the realized balance is compared, win first, against the two
expected outcomes within `TOLERANCE`, any mismatch defaulting to loss
(lines 339-360). -/
def determineOutcome (profit balanceAfter : Option ℚ) (invested balBefore : ℚ) :
    Bool × Option TStatus × ℚ :=
  match profit with
  | none => (true, none, balBefore - invested)
  | some p =>
    match balanceAfter with
    | none => (true, none, balBefore - invested)
    | some cur =>
      if ratAbs (cur - (balBefore + p + invested)) < TOLERANCE then
        (false, some TStatus.win, cur)
      else if ratAbs (cur - (balBefore - invested)) < TOLERANCE then
        (true, some TStatus.lose, cur)
      else (true, some TStatus.uncertain_loss, cur)

/-- The writes the monitor performs on `trade_sequence_state` before calling
`execute_martingale_or_reset`: record the status when one was decided
(lines 351, 355, 360; the RPC-failure paths record none) and overwrite
`balance_before_current_trade` (lines 322, 334, 363). -/
def applyOutcome (s : SeqState) (r : Bool × Option TStatus × ℚ) : SeqState :=
  { s with
    last_trade_status := r.2.1.or s.last_trade_status
    balance_before_current_trade := some r.2.2 }

/-- The sequence-dictionary writes of a successful martingale re-entry
(trader.py lines 374-375, 387, 390-395): level incremented, stake
multiplied, new order id recorded, and the fresh balance recorded when
obtainable. -/
def reentrySeq (env : MonitorEnv) (s : SeqState) : SeqState :=
  { s with
    current_level := s.current_level + 1
    current_amount := s.current_amount * MARTINGALE_MULTIPLIER
    last_trade_id := some env.nextOrderId
    balance_before_current_trade :=
      env.balanceAfterPlacement.or s.balance_before_current_trade }

/-- trader.py lines 371-417, the branch structure of
execute_martingale_or_reset: on a loss below the level cap the level is
incremented and the stake multiplied before the next order is placed; a
successful placement installs `reentrySeq`, a failed placement resets, and
every other branch resets via `reset_trade_sequence_state`.  The amount in
`placedReentry` is the amount handed to place_order. -/
def execute_martingale_or_reset (env : MonitorEnv) (reentry : Bool) (g : GState) :
    MonOut × GState :=
  if reentry then
    if g.seq.current_level < MAX_MARTINGALE_LEVELS then
      if env.placeOk then
        (MonOut.placedReentry env.nextOrderId
           (g.seq.current_amount * MARTINGALE_MULTIPLIER),
         { g with seq := reentrySeq env g.seq })
      else (MonOut.ended, reset_trade_sequence_state g)
    else (MonOut.ended, reset_trade_sequence_state g)
  else (MonOut.ended, reset_trade_sequence_state g)

/-- One full run of the background monitor
`monitor_trade_and_execute_martingale` (trader.py lines 293-365): determine
the outcome from the observed RPC results, apply the state writes, then run
`execute_martingale_or_reset`. -/
def monitor_trade_and_execute_martingale (env : MonitorEnv)
    (invested balBefore : ℚ) (g : GState) : MonOut × GState :=
  execute_martingale_or_reset env
    (determineOutcome env.profitDetails env.balanceAfter invested balBefore).1
    { g with
      seq := applyOutcome g.seq
        (determineOutcome env.profitDetails env.balanceAfter invested balBefore) }

/-! ## The webhook (trader.py lines 134-265) -/

/-- How the webhook answers an inbound signal: the JSON "ignored" and
"skipped" responses, the success response carrying the order id, or an HTTP
error raised with the given status code. -/
inductive WebhookResp
  | ignored
  | skipped
  | placed (orderId : Nat)
  | err (code : Nat)
deriving DecidableEq

/-- Everything one webhook invocation observes from outside the mutable
state: the connection status and the outcome of a reconnection attempt, the
fields of the external parser's output (`asset_name_for_po`, `direction`,
`entryTime` presence), whether the OrderDirection lookup succeeds and its
value, whether strptime parses the entry string and the parsed hour/minute,
the remote-zone UTC offset `roff` chosen by the timezone database, the
current instant, the result of `get_valid_balance` before the initial trade,
and whether the initial `place_order` succeeds together with its order id. -/
structure WebhookEnv where
  connected : Bool
  reconnectOk : Bool
  parsedAsset : Option String
  parsedDirection : Option String
  entryTimePresent : Bool
  directionVal : Option Direction
  entryHM : Option (Int × Int)
  roff : Int
  now : Int
  balanceBefore : Option ℚ
  placeOk : Bool
  orderId : Nat
deriving DecidableEq

/-- The acquired-gate state written by trade_signal_webhook before the
initial trade (trader.py lines 196-205): the gate set and the sequence
dictionary initialized for level 0; `balance_before_current_trade` is not
touched by this update. -/
def armState (env : WebhookEnv) (g : GState) (dir : Direction) : GState :=
  { gate := true
    seq := { g.seq with
             active := true
             asset := env.parsedAsset
             direction := some dir
             current_level := 0
             current_amount := INITIAL_TRADE_AMOUNT
             last_trade_id := none
             last_trade_status := some TStatus.pending } }

/-- The armed state after the pre-trade balance snapshot was stored
(trader.py line 213). -/
def fundedState (env : WebhookEnv) (g : GState) (dir : Direction) (b : ℚ) : GState :=
  { armState env g dir with
    seq := { (armState env g dir).seq with balance_before_current_trade := some b } }

/-- The state after the initial order was placed and its id recorded
(trader.py line 232). -/
def placedState (env : WebhookEnv) (g : GState) (dir : Direction) (b : ℚ) : GState :=
  { fundedState env g dir b with
    seq := { (fundedState env g dir b).seq with last_trade_id := some env.orderId } }

/-- trade_signal_webhook (trader.py lines 134-265).  The gate test is the
first action (lines 139-144); a dead, unrecoverable connection aborts with
503 (lines 146-152); missing essential parsed fields, an invalid direction
token, or an unparsable entry time abort with 400 (lines 159-184); a signal
later than the 5-second grace window past the resolved target is answered
"skipped" before the gate is touched (lines 188-190); otherwise the gate is
acquired and the sequence dictionary initialized (lines 196-205, `armState`),
the pre-trade balance fetched (reset + 503 when unobtainable, lines 208-213),
and the initial order placed (reset + 500 on failure, lines 224-265). -/
def trade_signal_webhook (env : WebhookEnv) (g : GState) : WebhookResp × GState :=
  if g.gate then (WebhookResp.ignored, g)
  else if !env.connected && !env.reconnectOk then (WebhookResp.err 503, g)
  else if env.parsedAsset.isNone || env.parsedDirection.isNone || !env.entryTimePresent then
    (WebhookResp.err 400, g)
  else
    match env.directionVal with
    | none => (WebhookResp.err 400, g)
    | some dir =>
      match env.entryHM with
      | none => (WebhookResp.err 400, g)
      | some hm =>
        if env.now > traderResolveTarget env.now hm.1 hm.2 env.roff + 5 then
          (WebhookResp.skipped, g)
        else
          match env.balanceBefore with
          | none => (WebhookResp.err 503, reset_trade_sequence_state (armState env g dir))
          | some b =>
            if env.placeOk then (WebhookResp.placed env.orderId, placedState env g dir b)
            else (WebhookResp.err 500, reset_trade_sequence_state (fundedState env g dir b))

/-! ## Reachability of the global state

Events are webhook invocations and completed monitor runs; each is atomic
with respect to the state because the asyncio event loop interleaves only at
awaits and the gate admits a single live sequence chain. -/

/-- The states of trader.py's globals reachable from process start. -/
inductive Reach : GState → Prop
  | init : Reach GState.init
  | signal (env : WebhookEnv) (g : GState) :
      Reach g → Reach (trade_signal_webhook env g).2
  | monitorStep (env : MonitorEnv) (invested balBefore : ℚ) (g : GState) :
      Reach g → Reach (monitor_trade_and_execute_martingale env invested balBefore g).2

/-! ## The main.py monitor's outcome decision (lines 373-392) -/

/-- One `get_balance()` attempt inside main.py's decision loop: the call
raised, or returned a Balance object whose `.balance` field is the given
value (`none` for a null balance). -/
inductive RpcTry
  | raised
  | value (b : Option ℚ)
deriving DecidableEq

/-- The retry loop of main.py lines 375-383.  `bound` is the Python local
variable `current_balance` (absent until an attempt returns).  A valid
positive balance different from `afterEntry` breaks out of the loop (the
`i == 3` disjunct never fires for `i` in range(3)); every other result
leaves the loop running with `current_balance` rebound; an exception leaves
the previous binding in place. -/
def mainBalanceLoop (attempts : List RpcTry) (afterEntry : ℚ)
    (bound : Option (Option ℚ)) : Option (Option ℚ) :=
  match attempts with
  | [] => bound
  | a :: rest =>
    match a with
    | RpcTry.raised => mainBalanceLoop rest afterEntry bound
    | RpcTry.value b =>
      match b with
      | some v =>
        if v > 0 && v != afterEntry then some (some v)
        else mainBalanceLoop rest afterEntry (some (some v))
      | none => mainBalanceLoop rest afterEntry (some none)

/-- main.py's re-entry decision (lines 373-392).  After the loop, the code
compares `current_balance.balance > after_entry_balance`: a strictly larger
balance means no re-entry, otherwise re-entry.  If the comparison raises —
`current_balance` never bound (NameError) or a null balance (TypeError) —
the surrounding `except` leaves `martingale_reentry_needed = False`:
an RPC failure is decided as NO re-entry, not as a loss. -/
def mainDetermineReentry (attempts : List RpcTry) (afterEntry : ℚ) : Bool :=
  match mainBalanceLoop attempts afterEntry none with
  | none => false
  | some none => false
  | some (some v) => !(v > afterEntry)

/-! ## Asset extraction from the raw notification (parse_data.py lines 48-60)

The Python call is
`re.search(r'([A-Z]{3}/[A-Z]{3}|\b[A-Z]{6}\b)\s*(OTC)?', text)`:
the first (leftmost) position where either a slash-separated pair of
three-letter groups or a word-bounded run of exactly six capitals starts,
the left alternative attempted first; the trailing part always matches the
empty string, so group 1 alone decides the result.  Word characters follow
Python's `\w` (letters, digits, underscore; the notification texts are
ASCII apart from emoji, which are non-word in both readings). -/

/-- A capital letter A-Z. -/
def isUpperAZ (c : Char) : Bool := 'A' ≤ c && c ≤ 'Z'

/-- A regex word character (`\w`). -/
def isWordChar (c : Char) : Bool := c.isAlpha || c.isDigit || c == '_'

/-- Attempt the left regex alternative `[A-Z]{3}/[A-Z]{3}` at the head of
the remaining text, returning the matched characters. -/
def tryAlt1 : List Char → Option (List Char)
  | a :: b :: c :: s :: d :: e :: f :: _ =>
    if isUpperAZ a && isUpperAZ b && isUpperAZ c && s == '/'
        && isUpperAZ d && isUpperAZ e && isUpperAZ f then
      some [a, b, c, s, d, e, f]
    else none
  | _ => none

/-- Attempt the right regex alternative `\b[A-Z]{6}\b` at the head of the
remaining text; `prev` is the character before the current position (none at
the start of the text), used for the leading word boundary. -/
def tryAlt2 (prev : Option Char) : List Char → Option (List Char)
  | a :: b :: c :: d :: e :: f :: rest =>
    if (match prev with
        | none => true
        | some p => !isWordChar p)
        && isUpperAZ a && isUpperAZ b && isUpperAZ c
        && isUpperAZ d && isUpperAZ e && isUpperAZ f
        && (match rest with
            | [] => true
            | r :: _ => !isWordChar r) then
      some [a, b, c, d, e, f]
    else none
  | _ => none

/-- The leftmost match of group 1 of the asset regex: at each position the
left alternative is tried before the right one, and the scan advances one
character on failure — Python `re.search` semantics. -/
def findAssetMatch : Option Char → List Char → Option (List Char)
  | _, [] => none
  | prev, c :: rest =>
    (tryAlt1 (c :: rest)).or ((tryAlt2 prev (c :: rest)).or (findAssetMatch (some c) rest))

/-- Python `str.replace` of the slash with the empty string, on the matched
characters. -/
def removeSlash (l : List Char) : List Char := l.filter (fun c => c != '/')

/-- Python `str.strip()`: drop leading and trailing whitespace. -/
def stripChars (l : List Char) : List Char :=
  ((l.dropWhile Char.isWhitespace).reverse.dropWhile Char.isWhitespace).reverse

/-- parse_data.py lines 55-56: `asset_match.group(1).replace('/','').strip()`
with `"T"` appended. -/
def assetNameForPO (m : List Char) : String :=
  String.mk (stripChars (removeSlash m)) ++ String.mk (['T'])

/-- The `asset_name_for_po` field produced by parse_macrodroid_trade_data
(parse_data.py lines 50-60): present exactly when the asset regex finds a
match, in which case it is the normalized pair; a failed search makes the
whole parse return the empty dictionary. -/
def parseAssetNameForPO (text : String) : Option String :=
  (findAssetMatch none text.data).map assetNameForPO

/-! ## Helper lemmas -/

/-- Resetting restores exactly the process-start value of the globals. -/
theorem reset_eq_init (g : GState) : reset_trade_sequence_state g = GState.init := rfl

/-- The executable absolute value agrees with the mathematical one. -/
theorem ratAbs_eq_abs (x : ℚ) : ratAbs x = |x| := by
  unfold ratAbs
  split
  · exact (abs_of_neg (by assumption)).symm
  · exact (abs_of_nonneg (not_lt.mp (by assumption))).symm

/-- Case analysis of `execute_martingale_or_reset`: either the re-entry is
placed (with its three guard conditions), or the run ends with the reset
state. -/
theorem execute_cases (env : MonitorEnv) (re : Bool) (g : GState) :
    (g.seq.current_level < MAX_MARTINGALE_LEVELS ∧ re = true ∧ env.placeOk = true ∧
      execute_martingale_or_reset env re g
        = (MonOut.placedReentry env.nextOrderId
             (g.seq.current_amount * MARTINGALE_MULTIPLIER),
           { g with seq := reentrySeq env g.seq }))
    ∨ execute_martingale_or_reset env re g = (MonOut.ended, GState.init) := by
  unfold execute_martingale_or_reset
  split
  · split
    · split
      · exact Or.inl ⟨by assumption, by assumption, by assumption, rfl⟩
      · exact Or.inr rfl
    · exact Or.inr rfl
  · exact Or.inr rfl

/-- A martingale step never raises the level above the configured maximum. -/
theorem execute_level_le (env : MonitorEnv) (re : Bool) (g : GState) :
    ((execute_martingale_or_reset env re g).2).seq.current_level
      ≤ MAX_MARTINGALE_LEVELS := by
  rcases execute_cases env re g with ⟨hlt, _, _, hc⟩ | hc <;> rw [hc]
  · simp only [reentrySeq]
    omega
  · simp [GState.init, MAX_MARTINGALE_LEVELS]

/-- A monitor run never raises the level above the configured maximum. -/
theorem monitor_level_le (env : MonitorEnv) (invested balBefore : ℚ) (g : GState) :
    ((monitor_trade_and_execute_martingale env invested balBefore g).2).seq.current_level
      ≤ MAX_MARTINGALE_LEVELS :=
  execute_level_le env _ _

/-- A webhook invocation leaves the globals untouched, resets them, or arms
a fresh level-0 sequence. -/
theorem webhook_state_cases (env : WebhookEnv) (g : GState) :
    (trade_signal_webhook env g).2 = g ∨ (trade_signal_webhook env g).2 = GState.init ∨
      ∃ dir b, (trade_signal_webhook env g).2 = placedState env g dir b := by
  unfold trade_signal_webhook
  split
  · exact Or.inl rfl
  · split
    · exact Or.inl rfl
    · split
      · exact Or.inl rfl
      · split
        · exact Or.inl rfl
        · split
          · exact Or.inl rfl
          · split
            · exact Or.inl rfl
            · split
              · exact Or.inr (Or.inl rfl)
              · split
                · exact Or.inr (Or.inr ⟨_, _, rfl⟩)
                · exact Or.inr (Or.inl rfl)

/-! ## Claim C1 -/

/-- C1: at most one trade sequence is active at an instant — a signal
arriving while the gate `is_processing_trade_sequence` is held is answered
with the "ignored" response and the entire global state, sequence dictionary
and gate alike, is returned unchanged. -/
theorem c1_gate_held_signal_ignored (env : WebhookEnv) (g : GState)
    (h : g.gate = true) :
    trade_signal_webhook env g = (WebhookResp.ignored, g) := by
  unfold trade_signal_webhook
  simp [h]

/-- C1 witness: a concrete busy state answers a concrete well-formed inbound
signal with "ignored" and is left unchanged. -/
theorem c1_witness :
    trade_signal_webhook
      { connected := true, reconnectOk := false, parsedAsset := some ("EURUSDT"),
        parsedDirection := some ("BUY"), entryTimePresent := true,
        directionVal := some Direction.call, entryHM := some (10, 59),
        roff := -14400, now := 1728053940, balanceBefore := some 100,
        placeOk := true, orderId := 5 }
      { seq := { active := true, asset := some ("EURUSDT"),
                 direction := some Direction.call, current_level := 1,
                 current_amount := 2, last_trade_id := some 3,
                 last_trade_status := some TStatus.pending,
                 balance_before_current_trade := some 99 },
        gate := true }
    = (WebhookResp.ignored,
       { seq := { active := true, asset := some ("EURUSDT"),
                  direction := some Direction.call, current_level := 1,
                  current_amount := 2, last_trade_id := some 3,
                  last_trade_status := some TStatus.pending,
                  balance_before_current_trade := some 99 },
         gate := true }) :=
  c1_gate_held_signal_ignored _ _ rfl

/-! ## Claim C2 -/

/-- C2: in every reachable global state the martingale level is at most
MAX_MARTINGALE_LEVELS, and a loss decided while the level equals that
maximum makes the monitor end the sequence with the full reset — defaults
restored and gate released — rather than place a further re-entry. -/
theorem c2_level_capped :
    (∀ g, Reach g → g.seq.current_level ≤ MAX_MARTINGALE_LEVELS) ∧
    (∀ (env : MonitorEnv) (invested balBefore : ℚ) (g : GState),
      (determineOutcome env.profitDetails env.balanceAfter invested balBefore).1 = true →
      g.seq.current_level = MAX_MARTINGALE_LEVELS →
      monitor_trade_and_execute_martingale env invested balBefore g
        = (MonOut.ended, GState.init)) := by
  constructor
  · intro g h
    induction h with
    | init => simp [GState.init, MAX_MARTINGALE_LEVELS]
    | signal env g hg ih =>
      rcases webhook_state_cases env g with hc | hc | ⟨dir, b, hc⟩ <;> rw [hc]
      · exact ih
      · simp [GState.init, MAX_MARTINGALE_LEVELS]
      · simp [placedState, fundedState, armState, MAX_MARTINGALE_LEVELS]
    | monitorStep env invested balBefore g hg ih =>
      exact monitor_level_le env invested balBefore g
  · intro env invested balBefore g hd hl
    show execute_martingale_or_reset env _ _ = _
    unfold execute_martingale_or_reset
    rw [if_pos hd, if_neg]
    · rfl
    · show ¬ (applyOutcome g.seq _).current_level < MAX_MARTINGALE_LEVELS
      simp [applyOutcome, hl]

/-- C2 witness: the initial state satisfies the level bound, and a concrete
level-2 state whose outcome is decided a loss (profit details missing) is
fully reset by the monitor. -/
theorem c2_witness :
    GState.init.seq.current_level ≤ MAX_MARTINGALE_LEVELS ∧
    monitor_trade_and_execute_martingale
      { profitDetails := none, balanceAfter := none, placeOk := true,
        nextOrderId := 9, balanceAfterPlacement := some 95 } 4 99
      { seq := { active := true, asset := some ("EURUSDT"),
                 direction := some Direction.call, current_level := 2,
                 current_amount := 4, last_trade_id := some 3,
                 last_trade_status := some TStatus.lose,
                 balance_before_current_trade := some 99 },
        gate := true }
    = (MonOut.ended, GState.init) :=
  ⟨c2_level_capped.1 GState.init Reach.init,
   c2_level_capped.2
     { profitDetails := none, balanceAfter := none, placeOk := true,
       nextOrderId := 9, balanceAfterPlacement := some 95 } 4 99
     { seq := { active := true, asset := some ("EURUSDT"),
                direction := some Direction.call, current_level := 2,
                current_amount := 4, last_trade_id := some 3,
                last_trade_status := some TStatus.lose,
                balance_before_current_trade := some 99 },
       gate := true }
     rfl rfl⟩

/-! ## Claim C3 -/

/-- C3: every path through the background monitor ends in either a re-entry
placement or a gate release — whenever a monitor run does not place a
further order, the gate flag in the resulting state is false. -/
theorem c3_monitor_releases (env : MonitorEnv) (invested balBefore : ℚ) (g : GState)
    (h : (monitor_trade_and_execute_martingale env invested balBefore g).1 = MonOut.ended) :
    ((monitor_trade_and_execute_martingale env invested balBefore g).2).gate = false := by
  have hm :
      monitor_trade_and_execute_martingale env invested balBefore g
        = execute_martingale_or_reset env
            (determineOutcome env.profitDetails env.balanceAfter invested balBefore).1
            { g with
              seq := applyOutcome g.seq
                (determineOutcome env.profitDetails env.balanceAfter invested balBefore) } := rfl
  rw [hm] at h ⊢
  rcases execute_cases env
      (determineOutcome env.profitDetails env.balanceAfter invested balBefore).1
      { g with
        seq := applyOutcome g.seq
          (determineOutcome env.profitDetails env.balanceAfter invested balBefore) } with
    ⟨_, _, _, hc⟩ | hc
  · rw [hc] at h
    exact absurd h (by simp)
  · rw [hc]
    rfl

/-- C3 witness: a monitor run whose every RPC fails and whose re-entry
placement also fails still ends with the gate released. -/
theorem c3_witness :
    ((monitor_trade_and_execute_martingale
       { profitDetails := none, balanceAfter := none, placeOk := false,
         nextOrderId := 9, balanceAfterPlacement := none } 1 100 GState.init).2).gate
      = false :=
  c3_monitor_releases
    { profitDetails := none, balanceAfter := none, placeOk := false,
      nextOrderId := 9, balanceAfterPlacement := none } 1 100 GState.init
    (by with_unfolding_all decide)

/-! ## Claim C4 -/

/-- C4, amended.  In the trader.py monitor every RPC failure while
determining the outcome — profit details never obtained, or no valid
balance obtainable — is decided "assume loss" (re-entry flag true) and the
state machine still advances (whenever no re-entry is placed, the gate is
released).  The main.py monitor also always advances, but when every
balance-retrieval attempt raises, its surrounding `except` leaves
`martingale_reentry_needed` at False: that variant decides NO re-entry on
RPC failure, not "assume loss". -/
theorem c4_amended_assume_loss :
    (∀ (env : MonitorEnv) (invested balBefore : ℚ) (g : GState),
      env.profitDetails = none ∨ env.balanceAfter = none →
      (determineOutcome env.profitDetails env.balanceAfter invested balBefore).1 = true ∧
      ((monitor_trade_and_execute_martingale env invested balBefore g).1 = MonOut.ended →
        ((monitor_trade_and_execute_martingale env invested balBefore g).2).gate = false)) ∧
    (∀ afterEntry : ℚ,
      mainDetermineReentry [RpcTry.raised, RpcTry.raised, RpcTry.raised] afterEntry
        = false) := by
  constructor
  · intro env invested balBefore g hfail
    constructor
    · rcases hfail with hf | hf <;> rw [hf]
      · rfl
      · cases env.profitDetails <;> rfl
    · intro h
      have hm :
          monitor_trade_and_execute_martingale env invested balBefore g
            = execute_martingale_or_reset env
                (determineOutcome env.profitDetails env.balanceAfter invested balBefore).1
                { g with
                  seq := applyOutcome g.seq
                    (determineOutcome env.profitDetails env.balanceAfter
                      invested balBefore) } := rfl
      rw [hm] at h ⊢
      rcases execute_cases env
          (determineOutcome env.profitDetails env.balanceAfter invested balBefore).1
          { g with
            seq := applyOutcome g.seq
              (determineOutcome env.profitDetails env.balanceAfter invested balBefore) } with
        ⟨_, _, _, hc⟩ | hc
      · rw [hc] at h
        exact absurd h (by simp)
      · rw [hc]
        rfl
  · intro afterEntry
    rfl

/-- C4 counterexample: the claim as stated is false for the main.py monitor
cited by the claim — with balance-before-comparison 100 and every one of
the three `get_balance` attempts raising, main.py decides
`martingale_reentry_needed = False` (treats the failure as a win and
resets), not "assume loss". -/
theorem c4_counterexample :
    mainDetermineReentry [RpcTry.raised, RpcTry.raised, RpcTry.raised] 100 = false := rfl

/-- C4 witness: the trader.py decision with missing profit details on a
concrete input is "assume loss", and the main.py decision with all attempts
raising is concretely "no re-entry". -/
theorem c4_witness :
    (determineOutcome none (some 99) 1 100).1 = true ∧
    mainDetermineReentry [RpcTry.raised, RpcTry.raised, RpcTry.raised] 50 = false :=
  ⟨(c4_amended_assume_loss.1
      { profitDetails := none, balanceAfter := some 99, placeOk := true,
        nextOrderId := 1, balanceAfterPlacement := none } 1 100 GState.init
      (Or.inl rfl)).1,
   c4_amended_assume_loss.2 50⟩

/-! ## Claim C5 -/

/-- C5: whenever the outcome is decided a loss while the level is below the
maximum and the placement succeeds, the monitor re-enters: the placed order
carries exactly the old stake multiplied by MARTINGALE_MULTIPLIER (the
mutation precedes the placement), the resulting level is the old level plus
one, the resulting stake is the old stake times the multiplier, and the
multiplier is the fixed ratio 2. -/
theorem c5_loss_below_max_reenters (env : MonitorEnv) (invested balBefore : ℚ)
    (g : GState)
    (hd : (determineOutcome env.profitDetails env.balanceAfter invested balBefore).1 = true)
    (hl : g.seq.current_level < MAX_MARTINGALE_LEVELS)
    (hp : env.placeOk = true) :
    (monitor_trade_and_execute_martingale env invested balBefore g).1
        = MonOut.placedReentry env.nextOrderId
            (g.seq.current_amount * MARTINGALE_MULTIPLIER) ∧
    ((monitor_trade_and_execute_martingale env invested balBefore g).2).seq.current_level
        = g.seq.current_level + 1 ∧
    ((monitor_trade_and_execute_martingale env invested balBefore g).2).seq.current_amount
        = g.seq.current_amount * MARTINGALE_MULTIPLIER ∧
    MARTINGALE_MULTIPLIER = 2 := by
  show (execute_martingale_or_reset env _ _).1 = _ ∧
    ((execute_martingale_or_reset env _ _).2).seq.current_level = _ ∧
    ((execute_martingale_or_reset env _ _).2).seq.current_amount = _ ∧ _
  unfold execute_martingale_or_reset
  rw [if_pos hd, if_pos (by simpa [applyOutcome] using hl), if_pos hp]
  exact ⟨rfl, rfl, rfl, rfl⟩

/-- C5 witness: a concrete level-0 loss (balance matched the loss estimate)
places a re-entry of twice the stake. -/
theorem c5_witness :
    (monitor_trade_and_execute_martingale
      { profitDetails := some (4/5), balanceAfter := some 99, placeOk := true,
        nextOrderId := 11, balanceAfterPlacement := some 99 } 1 100
      { seq := { active := true, asset := some ("EURUSDT"),
                 direction := some Direction.put, current_level := 0,
                 current_amount := 1, last_trade_id := some 10,
                 last_trade_status := some TStatus.pending,
                 balance_before_current_trade := some 100 },
        gate := true }).1
      = MonOut.placedReentry 11 (1 * MARTINGALE_MULTIPLIER) :=
  (c5_loss_below_max_reenters
    { profitDetails := some (4/5), balanceAfter := some 99, placeOk := true,
      nextOrderId := 11, balanceAfterPlacement := some 99 } 1 100
    { seq := { active := true, asset := some ("EURUSDT"),
               direction := some Direction.put, current_level := 0,
               current_amount := 1, last_trade_id := some 10,
               last_trade_status := some TStatus.pending,
               balance_before_current_trade := some 100 },
      gate := true }
    (by with_unfolding_all decide) (by decide) rfl).1

/-! ## Claim C6 -/

/-- C6: under the balance-delta policy with balance-before 100, stake 1 and
reported payout 0.8, a post-trade balance within 0.01 of 99.0 is decided a
loss (re-entry flag true, trader.py's `expected_balance_if_loss` branch),
one within 0.01 of 101.8 is decided a win (re-entry flag false), and every
other balance is decided a loss, the uncertain default.  The first
component of `determineOutcome` is the loss/re-entry decision. -/
theorem c6_balance_delta_cases (b : ℚ) :
    (|b - 99| < 1/100 → (determineOutcome (some (4/5)) (some b) 1 100).1 = true) ∧
    (|b - 1018/10| < 1/100 → (determineOutcome (some (4/5)) (some b) 1 100).1 = false) ∧
    (¬ |b - 99| < 1/100 → ¬ |b - 1018/10| < 1/100 →
      (determineOutcome (some (4/5)) (some b) 1 100).1 = true) := by
  have hval : determineOutcome (some (4/5)) (some b) 1 100
      = if |b - 1018/10| < 1/100 then (false, some TStatus.win, b)
        else if |b - 99| < 1/100 then (true, some TStatus.lose, b)
        else (true, some TStatus.uncertain_loss, b) := by
    simp only [determineOutcome, ratAbs_eq_abs, TOLERANCE]
    norm_num
  refine ⟨fun h1 => ?_, fun h2 => ?_, fun h1 h2 => ?_⟩
  · have hw : ¬ |b - 1018/10| < 1/100 := by
      rw [abs_lt] at h1 ⊢
      intro hc
      linarith [h1.1, h1.2, hc.1, hc.2]
    rw [hval, if_neg hw, if_pos h1]
  · rw [hval, if_pos h2]
  · rw [hval, if_neg h2, if_neg h1]

/-- C6 witness: concrete balances 99.005 (loss), 101.8 (win) and 50 (the
uncertain default, loss) decided through the theorem. -/
theorem c6_witness :
    (determineOutcome (some (4/5)) (some (99005/1000)) 1 100).1 = true ∧
    (determineOutcome (some (4/5)) (some (1018/10)) 1 100).1 = false ∧
    (determineOutcome (some (4/5)) (some 50) 1 100).1 = true :=
  ⟨(c6_balance_delta_cases (99005/1000)).1 (by rw [abs_lt]; norm_num),
   (c6_balance_delta_cases (1018/10)).2.1 (by rw [abs_lt]; norm_num),
   (c6_balance_delta_cases 50).2.2 (by rw [abs_lt]; norm_num)
     (by rw [abs_lt]; norm_num)⟩

/-! ## Claim C7 -/

/-- C7: a well-formed signal whose resolved target entry time precedes the
current local time by more than the 5-second grace window is answered
"skipped", and the global state — in particular the unheld gate — is
returned entirely unmodified. -/
theorem c7_late_signal_skipped (env : WebhookEnv) (g : GState)
    (h1 : g.gate = false)
    (h2 : env.connected = true ∨ env.reconnectOk = true)
    (h3 : env.parsedAsset.isNone = false)
    (h4 : env.parsedDirection.isNone = false)
    (h5 : env.entryTimePresent = true)
    (dir : Direction) (h6 : env.directionVal = some dir)
    (hm : Int × Int) (h7 : env.entryHM = some hm)
    (h8 : traderResolveTarget env.now hm.1 hm.2 env.roff + 5 < env.now) :
    trade_signal_webhook env g = (WebhookResp.skipped, g) := by
  unfold trade_signal_webhook
  rcases h2 with h2 | h2 <;>
    simp [h1, h2, h3, h4, h5, h6, h7, h8]

/-- C7 witness: the entry time 10:59 in the remote zone resolves, on a
local clock 10 seconds past the target, to a concrete "skipped" answer with
the state untouched and the gate still free. -/
theorem c7_witness :
    trade_signal_webhook
      { connected := true, reconnectOk := false, parsedAsset := some ("EURUSDT"),
        parsedDirection := some ("BUY"), entryTimePresent := true,
        directionVal := some Direction.call, entryHM := some (10, 59),
        roff := -14400, now := 1728053950, balanceBefore := some 100,
        placeOk := true, orderId := 5 } GState.init
      = (WebhookResp.skipped, GState.init) :=
  c7_late_signal_skipped _ GState.init rfl (Or.inl rfl) rfl rfl rfl
    Direction.call rfl (10, 59) rfl (by decide)

/-! ## Claim C8 -/

/-- C8 counterexample: at the concrete instant 1728010800 (a local clock
reading of 05:00 in Africa/Windhoek) with entry time 10:59 and the
daylight-saving remote offset, the algorithm the claim describes — today's
date in the REMOTE timezone plus the conditional one-day subtraction —
disagrees with both resolvers actually in the source: main.py's (which uses
the LOCAL date) and trader.py's (which also performs no subtraction). -/
theorem c8_counterexample :
    specResolveTarget 1728010800 10 59 (-14400)
        ≠ mainResolveTarget 1728010800 10 59 (-14400) ∧
    specResolveTarget 1728010800 10 59 (-14400)
        ≠ traderResolveTarget 1728010800 10 59 (-14400) := by
  constructor <;> decide

/-- C8, amended: the resolver combines today's date in the operator's LOCAL
timezone with the given time-of-day, localizes it to the remote timezone and
converts back — the produced instant reads h:m on the remote civil clock and
carries the local calendar date — and the main.py variant subtracts one day
before the reconversion exactly when the current local hour is at most 6,
while the trader.py variant never subtracts. -/
theorem c8_amended_local_date (now h m roff : Int)
    (hh0 : 0 ≤ h) (hh : h < 24) (hm0 : 0 ≤ m) (hm : m < 60) :
    (mainResolveTarget now h m roff + roff) % 86400 = h * 3600 + m * 60 ∧
    (mainResolveTarget now h m roff + roff) / 86400
        = localDay now - (if localHour now ≤ 6 then 1 else 0) ∧
    mainResolveTarget now h m roff
        = traderResolveTarget now h m roff
            - (if localHour now ≤ 6 then 86400 else 0) := by
  by_cases hc : localHour now ≤ 6
  · simp only [mainResolveTarget, traderResolveTarget, if_pos hc]
    refine ⟨by omega, by omega, by omega⟩
  · simp only [mainResolveTarget, traderResolveTarget, if_neg hc]
    refine ⟨by omega, by omega, by omega⟩

/-- C8 witness: the amended characterization evaluated at the concrete
counterexample instant. -/
theorem c8_witness :
    (mainResolveTarget 1728010800 10 59 (-14400) + (-14400)) % 86400
        = 10 * 3600 + 59 * 60 ∧
    (mainResolveTarget 1728010800 10 59 (-14400) + (-14400)) / 86400
        = localDay 1728010800 - (if localHour 1728010800 ≤ 6 then 1 else 0) ∧
    mainResolveTarget 1728010800 10 59 (-14400)
        = traderResolveTarget 1728010800 10 59 (-14400)
            - (if localHour 1728010800 ≤ 6 then 86400 else 0) :=
  c8_amended_local_date 1728010800 10 59 (-14400)
    (by decide) (by decide) (by decide) (by decide)

/-! ## Claim C9 -/

/-- C9: the gate-release/state-reset operation is idempotent — calling it
twice in a row from any starting state yields exactly the same final
sequence state and gate value as calling it once. -/
theorem c9_reset_idempotent (g : GState) :
    reset_trade_sequence_state (reset_trade_sequence_state g)
      = reset_trade_sequence_state g := rfl

/-! ## Claim C10 -/

/-- The form of a match produced by the left regex alternative: three
capitals, a slash, three capitals. -/
def Alt1Shape (l : List Char) : Prop :=
  ∃ a b c d e f, isUpperAZ a = true ∧ isUpperAZ b = true ∧ isUpperAZ c = true ∧
    isUpperAZ d = true ∧ isUpperAZ e = true ∧ isUpperAZ f = true ∧
    l = [a, b, c, '/', d, e, f]

/-- The form of a match produced by the right regex alternative: six
capitals. -/
def Alt2Shape (l : List Char) : Prop :=
  ∃ a b c d e f, isUpperAZ a = true ∧ isUpperAZ b = true ∧ isUpperAZ c = true ∧
    isUpperAZ d = true ∧ isUpperAZ e = true ∧ isUpperAZ f = true ∧
    l = [a, b, c, d, e, f]

theorem tryAlt1_shape (cs mch : List Char) (h : tryAlt1 cs = some mch) :
    Alt1Shape mch := by
  unfold tryAlt1 at h
  split at h
  · rename_i a b c s d e f rest
    split at h
    · rename_i hcond
      simp only [Bool.and_eq_true, beq_iff_eq] at hcond
      obtain ⟨⟨⟨⟨⟨⟨ha, hb⟩, hc⟩, hs⟩, hd⟩, he⟩, hf⟩ := hcond
      injection h with h2
      exact ⟨a, b, c, d, e, f, ha, hb, hc, hd, he, hf, by rw [← h2, hs]⟩
    · exact absurd h (by simp)
  · exact absurd h (by simp)

theorem tryAlt2_shape (prev : Option Char) (cs mch : List Char)
    (h : tryAlt2 prev cs = some mch) : Alt2Shape mch := by
  unfold tryAlt2 at h
  split at h
  · rename_i a b c d e f rest
    split at h
    · rename_i hcond
      simp only [Bool.and_eq_true] at hcond
      obtain ⟨⟨⟨⟨⟨⟨⟨_, ha⟩, hb⟩, hc⟩, hd⟩, he⟩, hf⟩, _⟩ := hcond
      injection h with h2
      exact ⟨a, b, c, d, e, f, ha, hb, hc, hd, he, hf, h2.symm⟩
    · exact absurd h (by simp)
  · exact absurd h (by simp)

/-- Every match the asset regex search returns has one of the two
alternatives' forms. -/
theorem findAssetMatch_shape (l : List Char) :
    ∀ (prev : Option Char) (mch : List Char),
      findAssetMatch prev l = some mch → Alt1Shape mch ∨ Alt2Shape mch := by
  induction l with
  | nil =>
    intro prev mch h
    simp [findAssetMatch] at h
  | cons c rest ih =>
    intro prev mch h
    unfold findAssetMatch at h
    cases h1 : tryAlt1 (c :: rest) with
    | some m1 =>
      rw [h1] at h
      simp only [Option.or] at h
      injection h with h2
      exact Or.inl (h2 ▸ tryAlt1_shape _ _ h1)
    | none =>
      rw [h1] at h
      simp only [Option.or] at h
      cases h2 : tryAlt2 prev (c :: rest) with
      | some m2 =>
        rw [h2] at h
        simp only [Option.or] at h
        injection h with h3
        exact Or.inr (h3 ▸ tryAlt2_shape _ _ _ h2)
      | none =>
        rw [h2] at h
        simp only [Option.or] at h
        exact ih (some c) mch h

theorem upperAZ_ne_slash (x : Char) (h : isUpperAZ x = true) : (x != '/') = true := by
  cases hx : x == '/'
  · simp [bne, hx]
  · exfalso
    have hx' : x = '/' := eq_of_beq hx
    subst hx'
    exact absurd h (by decide)

theorem upperAZ_not_ws (x : Char) (h : isUpperAZ x = true) : x.isWhitespace = false := by
  cases hw : x.isWhitespace
  · rfl
  · exfalso
    simp only [Char.isWhitespace, Bool.or_eq_true, decide_eq_true_eq] at hw
    rcases hw with ((h1 | h1) | h1) | h1 <;> (subst h1; exact absurd h (by decide))

theorem dropWhile_ws_id (l : List Char) (h : ∀ x ∈ l, x.isWhitespace = false) :
    l.dropWhile Char.isWhitespace = l := by
  cases l with
  | nil => rfl
  | cons x xs =>
    rw [List.dropWhile_cons, if_neg]
    simp [h x (List.mem_cons_self x xs)]

theorem stripChars_of_no_ws (l : List Char) (h : ∀ x ∈ l, x.isWhitespace = false) :
    stripChars l = l := by
  unfold stripChars
  rw [dropWhile_ws_id l h,
    dropWhile_ws_id l.reverse (fun x hx => h x (List.mem_reverse.mp hx)),
    List.reverse_reverse]

theorem mk_append_mk (l1 l2 : List Char) :
    String.mk l1 ++ String.mk l2 = String.mk (l1 ++ l2) := rfl

/-- C10: whenever the parser's asset regex finds a currency-pair match in a
notification text, the produced `asset_name_for_po` is exactly the matched
pair with any slash removed and the letter T appended, and it is never the
literal pair text from the signal — so the asset handed to placeOrder never
equals the raw match. -/
theorem c10_asset_normalized (text : String) (mch : List Char)
    (h : findAssetMatch none text.data = some mch) :
    parseAssetNameForPO text = some (assetNameForPO mch) ∧
    (assetNameForPO mch).data = removeSlash mch ++ (['T']) ∧
    assetNameForPO mch ≠ String.mk mch := by
  refine ⟨by simp [parseAssetNameForPO, h], ?_⟩
  rcases findAssetMatch_shape text.data none mch h with
    ⟨a, b, c, d, e, f, ha, hb, hc, hd, he, hf, rfl⟩ |
    ⟨a, b, c, d, e, f, ha, hb, hc, hd, he, hf, rfl⟩
  · have hrs : removeSlash [a, b, c, '/', d, e, f] = [a, b, c, d, e, f] := by
      simp [removeSlash, List.filter_cons, upperAZ_ne_slash a ha, upperAZ_ne_slash b hb,
        upperAZ_ne_slash c hc, upperAZ_ne_slash d hd, upperAZ_ne_slash e he,
        upperAZ_ne_slash f hf]
    have hst : stripChars [a, b, c, d, e, f] = [a, b, c, d, e, f] := by
      apply stripChars_of_no_ws
      intro x hx
      simp only [List.mem_cons, List.not_mem_nil, or_false] at hx
      rcases hx with rfl | rfl | rfl | rfl | rfl | rfl
      · exact upperAZ_not_ws _ ha
      · exact upperAZ_not_ws _ hb
      · exact upperAZ_not_ws _ hc
      · exact upperAZ_not_ws _ hd
      · exact upperAZ_not_ws _ he
      · exact upperAZ_not_ws _ hf
    have hform : assetNameForPO [a, b, c, '/', d, e, f]
        = String.mk ([a, b, c, d, e, f] ++ (['T'])) := by
      unfold assetNameForPO
      rw [hrs, hst, mk_append_mk]
    constructor
    · rw [hform, hrs]
    · rw [hform]
      intro he2
      have h3 := congrArg String.data he2
      simp only [List.cons_append, List.nil_append, List.cons.injEq] at h3
      obtain ⟨-, -, -, hd4, -⟩ := h3
      subst hd4
      exact absurd hd (by decide)
  · have hrs : removeSlash [a, b, c, d, e, f] = [a, b, c, d, e, f] := by
      simp [removeSlash, List.filter_cons, upperAZ_ne_slash a ha, upperAZ_ne_slash b hb,
        upperAZ_ne_slash c hc, upperAZ_ne_slash d hd, upperAZ_ne_slash e he,
        upperAZ_ne_slash f hf]
    have hst : stripChars [a, b, c, d, e, f] = [a, b, c, d, e, f] := by
      apply stripChars_of_no_ws
      intro x hx
      simp only [List.mem_cons, List.not_mem_nil, or_false] at hx
      rcases hx with rfl | rfl | rfl | rfl | rfl | rfl
      · exact upperAZ_not_ws _ ha
      · exact upperAZ_not_ws _ hb
      · exact upperAZ_not_ws _ hc
      · exact upperAZ_not_ws _ hd
      · exact upperAZ_not_ws _ he
      · exact upperAZ_not_ws _ hf
    have hform : assetNameForPO [a, b, c, d, e, f]
        = String.mk ([a, b, c, d, e, f] ++ (['T'])) := by
      unfold assetNameForPO
      rw [hrs, hst, mk_append_mk]
    constructor
    · rw [hform, hrs]
    · rw [hform]
      intro he2
      have h3 := congrArg String.data he2
      simp only [List.cons_append, List.nil_append, List.cons.injEq, and_true,
        true_and] at h3
      exact absurd h3 (List.cons_ne_nil _ _)

/-- C10 witness: the pair EUR/USD found in a concrete notification text is
normalized to EURUSDT, which differs from the literal matched text. -/
theorem c10_witness :
    parseAssetNameForPO ("EUR/USD OTC")
        = some (assetNameForPO (['E', 'U', 'R', '/', 'U', 'S', 'D'])) ∧
    (assetNameForPO (['E', 'U', 'R', '/', 'U', 'S', 'D'])).data
        = removeSlash (['E', 'U', 'R', '/', 'U', 'S', 'D']) ++ (['T']) ∧
    assetNameForPO (['E', 'U', 'R', '/', 'U', 'S', 'D'])
        ≠ String.mk (['E', 'U', 'R', '/', 'U', 'S', 'D']) :=
  c10_asset_normalized ("EUR/USD OTC") (['E', 'U', 'R', '/', 'U', 'S', 'D']) (by decide)
